import Mathlib

/-!
Verification of the Rustforce Salesforce client.

The development shallowly embeds the client (`src/salesforce_client.rs`,
`src/salesforce_operations.rs`, `src/constants.rs`, `src/auth_response.rs`).
HTTP is modelled by an oracle `net` mapping the request the code builds to
either a transport failure or a response (status code plus body text);
`serde_json` parsing is modelled by an executable JSON parser over the body
string (JSON numbers are restricted to integers, which covers every payload
the repository handles).  Rust panics (the `unwrap()` calls on the session
fields) are modelled as an explicit `panicked` outcome distinct from the
`Result` error channel.
-/

namespace Rustforce

/-- The model of `serde_json::Value`. -/
inductive Json where
  | null
  | bool (b : Bool)
  | num (n : Int)
  | str (s : String)
  | arr (elems : List Json)
  | obj (fields : List (String × Json))
deriving Repr, Inhabited

/-- JSON whitespace recognised by the parser. -/
def isJsonWs (c : Char) : Bool :=
  c = ' ' || c = '\t' || c = '\n' || c = '\r'

/-- Drop leading JSON whitespace. -/
def skipWs : List Char → List Char
  | [] => []
  | c :: cs => if isJsonWs c then skipWs cs else c :: cs

/-- Value of a hexadecimal digit. -/
def hexVal (c : Char) : Option Nat :=
  if '0' ≤ c ∧ c ≤ '9' then some (c.toNat - '0'.toNat)
  else if 'a' ≤ c ∧ c ≤ 'f' then some (c.toNat - 'a'.toNat + 10)
  else if 'A' ≤ c ∧ c ≤ 'F' then some (c.toNat - 'A'.toNat + 10)
  else none

/-- Parse the body of a JSON string literal (the opening quote already
consumed), handling the standard escapes.  Returns the decoded string and
the input following the closing quote. -/
def parseStringBody : List Char → List Char → Option (String × List Char)
  | _, [] => none
  | acc, c :: rest =>
    if c = '"' then some (String.mk acc.reverse, rest)
    else if c = '\\' then
      match rest with
      | [] => none
      | e :: rest' =>
        if e = '"' ∨ e = '\\' ∨ e = '/' then parseStringBody (e :: acc) rest'
        else if e = 'b' then parseStringBody ('\x08' :: acc) rest'
        else if e = 'f' then parseStringBody ('\x0c' :: acc) rest'
        else if e = 'n' then parseStringBody ('\n' :: acc) rest'
        else if e = 'r' then parseStringBody ('\r' :: acc) rest'
        else if e = 't' then parseStringBody ('\t' :: acc) rest'
        else if e = 'u' then
          match rest' with
          | h1 :: h2 :: h3 :: h4 :: rest2 =>
            match hexVal h1, hexVal h2, hexVal h3, hexVal h4 with
            | some a, some b, some c3, some d =>
              parseStringBody (Char.ofNat (((a * 16 + b) * 16 + c3) * 16 + d) :: acc) rest2
            | _, _, _, _ => none
          | _ => none
        else none
    else parseStringBody (c :: acc) rest

/-- Split a leading run of decimal digits from the input. -/
def takeDigits : List Char → List Char × List Char
  | [] => ([], [])
  | c :: cs =>
    if c.isDigit then
      let (d, r) := takeDigits cs
      (c :: d, r)
    else ([], c :: cs)

/-- Numeric value of a digit list. -/
def digitsToNat (ds : List Char) : Nat :=
  ds.foldl (fun a c => a * 10 + (c.toNat - '0'.toNat)) 0

/-- True when the character would continue a non-integer numeric token. -/
def isFloatCont (c : Char) : Bool :=
  c = '.' || c = 'e' || c = 'E'

/-- Parse a JSON integer (optional minus sign followed by digits); fails on
fractional or exponent forms, which the embedding does not support. -/
def parseNumber (input : List Char) : Option (Int × List Char) :=
  match input with
  | '-' :: cs =>
    match takeDigits cs with
    | ([], _) => none
    | (ds, rest) =>
      match rest with
      | r :: _ => if isFloatCont r then none else some (-(digitsToNat ds : Int), rest)
      | [] => some (-(digitsToNat ds : Int), rest)
  | cs =>
    match takeDigits cs with
    | ([], _) => none
    | (ds, rest) =>
      match rest with
      | r :: _ => if isFloatCont r then none else some ((digitsToNat ds : Int), rest)
      | [] => some ((digitsToNat ds : Int), rest)

/-- Intermediate result of the fuel-bounded JSON parser: a single value, a
run of array elements, or a run of object members, each with the remaining
input. -/
inductive PRes where
  | val (j : Json) (rest : List Char)
  | elems (es : List Json) (rest : List Char)
  | fields (fs : List (String × Json) ) (rest : List Char)
deriving Repr

/-- Fuel-bounded JSON parser core.  Mode 0 parses one value, mode 1 the
elements of a non-empty array up to the closing bracket, mode 2 the members
of a non-empty object up to the closing brace.  Written as a single
structural recursion on the fuel so it evaluates by kernel reduction. -/
def parseCore : Nat → Nat → List Char → Option PRes
  | 0, _, _ => none
  | fuel + 1, mode, input =>
    if mode = 0 then
      match skipWs input with
      | 'n' :: 'u' :: 'l' :: 'l' :: rest => some (.val .null rest)
      | 't' :: 'r' :: 'u' :: 'e' :: rest => some (.val (.bool true) rest)
      | 'f' :: 'a' :: 'l' :: 's' :: 'e' :: rest => some (.val (.bool false) rest)
      | '"' :: rest =>
        match parseStringBody [] rest with
        | some (s, rest') => some (.val (.str s) rest')
        | none => none
      | '[' :: rest =>
        match skipWs rest with
        | ']' :: rest' => some (.val (.arr []) rest')
        | rest' =>
          match parseCore fuel 1 rest' with
          | some (.elems es rest2) => some (.val (.arr es) rest2)
          | _ => none
      | '{' :: rest =>
        match skipWs rest with
        | '}' :: rest' => some (.val (.obj []) rest')
        | rest' =>
          match parseCore fuel 2 rest' with
          | some (.fields fs rest2) => some (.val (.obj fs) rest2)
          | _ => none
      | cs =>
        match parseNumber cs with
        | some (n, rest) => some (.val (.num n) rest)
        | none => none
    else if mode = 1 then
      match parseCore fuel 0 input with
      | some (.val j rest) =>
        match skipWs rest with
        | ',' :: rest' =>
          match parseCore fuel 1 rest' with
          | some (.elems es rest2) => some (.elems (j :: es) rest2)
          | _ => none
        | ']' :: rest' => some (.elems [j] rest')
        | _ => none
      | _ => none
    else
      match skipWs input with
      | '"' :: rest =>
        match parseStringBody [] rest with
        | none => none
        | some (k, rest1) =>
          match skipWs rest1 with
          | ':' :: rest2 =>
            match parseCore fuel 0 rest2 with
            | some (.val v rest3) =>
              match skipWs rest3 with
              | ',' :: rest4 =>
                match parseCore fuel 2 rest4 with
                | some (.fields fs rest5) => some (.fields ((k, v) :: fs) rest5)
                | _ => none
              | '}' :: rest4 => some (.fields [(k, v)] rest4)
              | _ => none
            | _ => none
          | _ => none
      | _ => none

/-- Parse one JSON value, fuel-bounded. -/
def parseValue (fuel : Nat) (input : List Char) : Option (Json × List Char) :=
  match parseCore fuel 0 input with
  | some (.val j rest) => some (j, rest)
  | _ => none

/-- The model of `serde_json::from_str::<Value>`: parse the whole string as
one JSON value (surrounding whitespace allowed), or report a decode error. -/
def jsonFromStr (s : String) : Except String Json :=
  match parseValue (2 * s.length + 2) s.data with
  | some (j, rest) =>
    match skipWs rest with
    | [] => .ok j
    | _ => .error "trailing characters"
  | none => .error "expected value"

/-- Key lookup in a parsed JSON object.  `serde_json` keeps the last
occurrence of a duplicated key, so the lookup searches from the right. -/
def jLookup (fields : List (String × Json)) (key : String) : Option Json :=
  fields.reverse.lookup key

/-- The model of `serde_json::Value` string indexing (`value["id"]`):
returns the member of an object, and `Null` for a missing key or a
non-object. -/
def Json.indexStr (j : Json) (key : String) : Json :=
  match j with
  | .obj fields => (jLookup fields key).getD .null
  | _ => .null

/-- The model of `Value::as_str`. -/
def Json.as_str (j : Json) : Option String :=
  match j with
  | .str s => some s
  | _ => none

/-- `AuthResponse` from `src/auth_response.rs`: the two fields deserialised
from the token endpoint's JSON body. -/
structure AuthResponse where
  access_token : String
  instance_url : String
deriving Repr, DecidableEq

/-- The model of `serde_json::from_str::<AuthResponse>`: the body must be a
JSON object whose `access_token` and `instance_url` members are strings;
unknown members are ignored, as serde does by default. -/
def authResponseFromStr (s : String) : Except String AuthResponse :=
  match jsonFromStr s with
  | .error e => .error e
  | .ok (.obj fields) =>
    match jLookup fields "access_token" with
    | some (.str a) =>
      match jLookup fields "instance_url" with
      | some (.str i) => .ok { access_token := a, instance_url := i }
      | some _ => .error "invalid type for field instance_url"
      | none => .error "missing field instance_url"
    | some _ => .error "invalid type for field access_token"
    | none => .error "missing field access_token"
  | .ok _ => .error "invalid type: expected struct AuthResponse"

/-- `AuthError` from `src/auth_response.rs`.  `ReqwestError` carries the
underlying transport cause as text. -/
inductive AuthError where
  | ReqwestError (e : String)
  | ParseError (msg : String)
  | CustomError (msg : String)
deriving Repr, DecidableEq

/-- An HTTP response as the code observes it: the status code, and the
result of `res.text()` (`none` models a body-read failure). -/
structure HttpResponse where
  status : Nat
  textResult : Option String
deriving Repr, DecidableEq

/-- The outcome of `reqwest`'s `send()`: a transport error or a response. -/
inductive SendResult where
  | transportErr (e : String)
  | response (r : HttpResponse)
deriving Repr, DecidableEq

/-- The form-encoded POST the token exchange sends. -/
structure FormRequest where
  url : String
  params : List (String × String)
deriving Repr, DecidableEq

/-- The JSON POST `insert_record` sends (bearer-token authenticated). -/
structure JsonPostRequest where
  url : String
  bearer : String
  body : List (String × Json)
deriving Repr

/-- The GET `query_records` sends (bearer-token authenticated). -/
structure GetRequest where
  url : String
  bearer : String
deriving Repr, DecidableEq

/-- Canonical reason phrases of the status codes this development
exercises, as the `http` crate prints them. -/
def canonicalReason (code : Nat) : Option String :=
  match code with
  | 200 => some "OK"
  | 201 => some "Created"
  | 204 => some "No Content"
  | 400 => some "Bad Request"
  | 401 => some "Unauthorized"
  | 403 => some "Forbidden"
  | 404 => some "Not Found"
  | 415 => some "Unsupported Media Type"
  | 500 => some "Internal Server Error"
  | 503 => some "Service Unavailable"
  | _ => none

/-- The model of `Display` for `reqwest::StatusCode`: the numeric code
followed by its canonical reason. -/
def statusDisplay (code : Nat) : String :=
  toString code ++ " " ++ (canonicalReason code).getD "<unknown status code>"

/-- `Constants` from `src/constants.rs`: the credential and endpoint
configuration. -/
structure Constants where
  consumer_key : String
  consumer_secret : String
  username : String
  token : String
  password : String
  endpoint : String
deriving Repr, DecidableEq

/-- `Constants::token_request_endpoint_url` from `src/constants.rs`. -/
def Constants.token_request_endpoint_url (c : Constants) : String :=
  c.endpoint ++ "/services/oauth2/token"

/-- The configuration-dependent part of `Constants::new`: given the
`[Salesforce]` section of the INI file as a key-value list, build the
`Constants`.  A missing key makes the Rust code panic, modelled as `none`;
the `password` field is the literal embedded in the source, not read from
the section. -/
def Constants.fromSection (sec : List (String × String)) : Option Constants :=
  match sec.lookup "CONSUMER_KEY", sec.lookup "CONSUMER_SECRET",
        sec.lookup "USERNAME", sec.lookup "TOKEN", sec.lookup "ENDPOINT" with
  | some ck, some cs, some un, some tk, some ep =>
    some { consumer_key := ck, consumer_secret := cs, username := un,
           token := tk, password := "GDMERPDevStud10$!@", endpoint := ep }
  | _, _, _, _, _ => none

/-- `SalesforceClient` from `src/salesforce_client.rs`. -/
structure SalesforceClient where
  token : Option String
  instance_url : Option String
deriving Repr, DecidableEq

/-- `SalesforceClient::new`. -/
def SalesforceClient.new : SalesforceClient :=
  { token := none, instance_url := none }

/-- The request `authorize` builds: the token endpoint URL and the five
form parameters, with the account password concatenated with the security
token. -/
def authorizeRequest (constants : Constants) : FormRequest :=
  { url := constants.token_request_endpoint_url,
    params := [("grant_type", "password"),
               ("client_id", constants.consumer_key),
               ("client_secret", constants.consumer_secret),
               ("username", constants.username),
               ("password", constants.password ++ constants.token)] }

/-- How `authorize` treats the outcome of its `send()`: transport failure
propagates as `ReqwestError`; a non-200 status yields a `CustomError`
carrying the status and body; a 200 body is decoded as `AuthResponse` (a
decode failure yields `ParseError`) and on success both session fields are
set.  Returns the `Result` together with the (possibly updated) client. -/
def authorizeHandle (self : SalesforceClient) (send : SendResult) :
    Except AuthError Unit × SalesforceClient :=
  match send with
  | .transportErr e => (.error (.ReqwestError e), self)
  | .response res =>
    let status := res.status
    let error_text := res.textResult.getD "Failed to read response"
    if status ≠ 200 then
      (.error (.CustomError ("Error: " ++ statusDisplay status ++ " - " ++ error_text)), self)
    else
      match authResponseFromStr error_text with
      | .error e => (.error (.ParseError e), self)
      | .ok ar =>
        (.ok (), { self with token := some ar.access_token,
                             instance_url := some ar.instance_url })

/-- `SalesforceClient::authorize` from `src/salesforce_client.rs`, with the
network abstracted as the oracle `net`. -/
def SalesforceClient.authorize (self : SalesforceClient) (constants : Constants)
    (net : FormRequest → SendResult) : Except AuthError Unit × SalesforceClient :=
  authorizeHandle self (net (authorizeRequest constants))

/-- Outcome of a record operation: the `Ok`/`Err` channels of the Rust
`Result`, plus `panicked` for an `unwrap()` on `None`. -/
inductive Outcome (α : Type) where
  | ok (a : α)
  | err (e : AuthError)
  | panicked (msg : String)
deriving Repr

/-- The message of Rust's `unwrap()` panic on `None`. -/
def unwrapNoneMsg : String := "called Option::unwrap() on a None value"

/-- The request `insert_record` builds. -/
def insertRequest (iu tok object_type : String) (data : List (String × Json)) :
    JsonPostRequest :=
  { url := iu ++ "/services/data/v60.0/sobjects/" ++ object_type,
    bearer := tok, body := data }

/-- `SalesforceClient::insert_record` from `src/salesforce_operations.rs`.
Both session fields are unwrapped while the request is built, before any
network activity, so an unauthenticated client panics.  A 201 response has
its body parsed as JSON and its `id` member returned as a string; a
missing or non-string `id` yields `ParseError "Missing ID in response"`;
any other status yields a `CustomError` with the status and body. -/
def SalesforceClient.insert_record (self : SalesforceClient) (object_type : String)
    (data : List (String × Json)) (net : JsonPostRequest → SendResult) :
    Outcome String :=
  match self.instance_url with
  | none => .panicked unwrapNoneMsg
  | some iu =>
    match self.token with
    | none => .panicked unwrapNoneMsg
    | some tok =>
      match net (insertRequest iu tok object_type data) with
      | .transportErr e => .err (.ReqwestError e)
      | .response res =>
        let status := res.status
        let response_text := res.textResult.getD "Failed to read response"
        if status ≠ 201 then
          .err (.CustomError ("Failed to create record. Status: " ++
            statusDisplay status ++ " - " ++ response_text))
        else
          match jsonFromStr response_text with
          | .error e => .err (.ParseError e)
          | .ok response_json =>
            match (response_json.indexStr "id").as_str with
            | none => .err (.ParseError "Missing ID in response")
            | some id => .ok id

/-- The request `query_records` builds (the query string is passed into
the URL unmodified). -/
def queryRequest (iu tok query : String) : GetRequest :=
  { url := iu ++ "/services/data/v60.0/query?q=" ++ query, bearer := tok }

/-- `SalesforceClient::query_records` from `src/salesforce_operations.rs`.
Unwraps both session fields while building the request (panicking when
unauthenticated); a 200 response has its body parsed as JSON and returned
verbatim; any other status yields a `CustomError` with the status and
body. -/
def SalesforceClient.query_records (self : SalesforceClient) (query : String)
    (net : GetRequest → SendResult) : Outcome Json :=
  match self.instance_url with
  | none => .panicked unwrapNoneMsg
  | some iu =>
    match self.token with
    | none => .panicked unwrapNoneMsg
    | some tok =>
      match net (queryRequest iu tok query) with
      | .transportErr e => .err (.ReqwestError e)
      | .response res =>
        let status := res.status
        let response_text := res.textResult.getD "Failed to read response"
        if status ≠ 200 then
          .err (.CustomError ("Failed to query records. Status: " ++
            statusDisplay status ++ " - " ++ response_text))
        else
          match jsonFromStr response_text with
          | .error e => .err (.ParseError e)
          | .ok response_json => .ok response_json

/-- `true` exactly on the `Ok` channel of an authorization result. -/
def isOkResult (r : Except AuthError Unit) : Bool :=
  match r with
  | .ok _ => true
  | .error _ => false

/-! Concrete inputs used by the witnesses. -/

/-- Demonstration credentials. -/
def cDemo : Constants :=
  { consumer_key := "ck", consumer_secret := "cs", username := "user",
    token := "sek", password := "pw", endpoint := "https://login.example.com" }

/-- A well-formed token-endpoint success body. -/
def authBodyOk : String :=
  "\x7b\"access_token\":\"T1\",\"instance_url\":\"https://example.my.salesforce.com\"\x7d"

/-- A 200 token-endpoint body missing `access_token`. -/
def authBodyNoTok : String := "\x7b\"instance_url\":\"https://x.example.com\"\x7d"

/-- Network oracle answering 200 with `authBodyOk`. -/
def netAuthOk : FormRequest → SendResult :=
  fun _ => .response { status := 200, textResult := some authBodyOk }

/-- Network oracle answering 401. -/
def netAuth401 : FormRequest → SendResult :=
  fun _ => .response { status := 401, textResult := some "bad credentials" }

/-- Network oracle answering 200 with `authBodyNoTok`. -/
def netAuthNoTok : FormRequest → SendResult :=
  fun _ => .response { status := 200, textResult := some authBodyNoTok }

/-- An authenticated client state. -/
def sAuthed : SalesforceClient :=
  { token := some "T1", instance_url := some "https://example.my.salesforce.com" }

/-- Oracle for a create call answered 201 with an `id`. -/
def netInsOk : JsonPostRequest → SendResult :=
  fun _ => .response { status := 201, textResult := some "\x7b\"id\":\"001xx000003DGb2AAG\"\x7d" }

/-- Oracle for a create call answered 201 without an `id`. -/
def netInsNoId : JsonPostRequest → SendResult :=
  fun _ => .response { status := 201, textResult := some "\x7b\"success\":true\x7d" }

/-- Oracle for a create call answered 400. -/
def netIns400 : JsonPostRequest → SendResult :=
  fun _ => .response { status := 400, textResult := some "duplicate value found" }

/-- The query-result body of the specification's example. -/
def queryBodyDemo : String :=
  "\x7b\"totalSize\":1,\"done\":true,\"records\":[\x7b\"Id\":\"500x\",\"Subject\":\"hi\"\x7d]\x7d"

/-- The JSON value `queryBodyDemo` parses to. -/
def queryJsonDemo : Json :=
  .obj [("totalSize", .num 1), ("done", .bool true),
        ("records", .arr [.obj [("Id", .str "500x"), ("Subject", .str "hi")]])]

/-- Oracle for a query call answered 200 with `queryBodyDemo`. -/
def netQueryOk : GetRequest → SendResult :=
  fun _ => .response { status := 200, textResult := some queryBodyDemo }

/-- The `[Salesforce]` section the loader itself writes as a template. -/
def secDemo : List (String × String) :=
  [("SalesforceVersionNumber", "60.0"), ("CONSUMER_KEY", "ConsumerKey"),
   ("CONSUMER_SECRET", "ConsumerSecret"), ("USERNAME", "LoginUsername"),
   ("TOKEN", "SecurityToken"), ("ENDPOINT", "salesforceinstanceurl")]

/-- The `Constants` built from `secDemo`. -/
def cFromSecDemo : Constants :=
  { consumer_key := "ConsumerKey", consumer_secret := "ConsumerSecret",
    username := "LoginUsername", token := "SecurityToken",
    password := "GDMERPDevStud10$!@", endpoint := "salesforceinstanceurl" }

/-! The claims. -/

/-- C1: contrary to the specification's requirement that a record operation
invoked before any successful `authorize` fail with an explicit
precondition error on the normal error channel, the code unwraps the
`None` session fields and panics: on a fresh client both `insert_record`
and `query_records` end in the `unwrap()`-on-`None` panic rather than any
`Err` value. -/
theorem insert_query_before_authorize_panic :
    SalesforceClient.new.insert_record "Case" [("Subject", .str "Test case")]
        (fun _ => .transportErr "unused") = .panicked unwrapNoneMsg ∧
    SalesforceClient.new.query_records "SELECT Id, Subject FROM Case LIMIT 10"
        (fun _ => .transportErr "unused") = .panicked unwrapNoneMsg :=
  ⟨rfl, rfl⟩

/-- C2: for every non-2xx status answered by the token endpoint,
`authorize` returns a `CustomError` carrying that status and the raw body,
and the client state is returned unchanged. -/
theorem authorize_non2xx_api_error (self : SalesforceClient) (c : Constants)
    (net : FormRequest → SendResult) (status : Nat) (body : String)
    (hnet : net (authorizeRequest c) =
      .response { status := status, textResult := some body })
    (h2xx : ¬ (200 ≤ status ∧ status < 300)) :
    self.authorize c net =
      (.error (.CustomError ("Error: " ++ statusDisplay status ++ " - " ++ body)), self) := by
  have hne : status ≠ 200 := fun h => h2xx (by omega)
  simp [SalesforceClient.authorize, authorizeHandle, hnet, hne]

/-- Witness for C2 at status 401. -/
theorem authorize_non2xx_api_error_witness :
    SalesforceClient.new.authorize cDemo netAuth401 =
      (.error (.CustomError ("Error: " ++ statusDisplay 401 ++ " - " ++ "bad credentials")),
       SalesforceClient.new) :=
  authorize_non2xx_api_error SalesforceClient.new cDemo netAuth401 401 "bad credentials"
    rfl (by omega)

/-- C3: for every 200 answer from the token endpoint whose JSON body has
string members `access_token` and `instance_url`, `authorize` succeeds and
stores exactly those two values as the new session. -/
theorem authorize_200_stores_session (self : SalesforceClient) (c : Constants)
    (net : FormRequest → SendResult) (body : String)
    (fields : List (String × Json)) (t u : String)
    (hnet : net (authorizeRequest c) =
      .response { status := 200, textResult := some body })
    (hjson : jsonFromStr body = .ok (.obj fields))
    (ht : jLookup fields "access_token" = some (.str t))
    (hu : jLookup fields "instance_url" = some (.str u)) :
    self.authorize c net = (.ok (), { token := some t, instance_url := some u }) := by
  have hdec : authResponseFromStr body = .ok { access_token := t, instance_url := u } := by
    simp [authResponseFromStr, hjson, ht, hu]
  simp [SalesforceClient.authorize, authorizeHandle, hnet, hdec]

/-- Witness for C3 on the specification's example body. -/
theorem authorize_200_stores_session_witness :
    SalesforceClient.new.authorize cDemo netAuthOk =
      (.ok (), { token := some "T1",
                 instance_url := some "https://example.my.salesforce.com" }) :=
  authorize_200_stores_session SalesforceClient.new cDemo netAuthOk authBodyOk
    [("access_token", .str "T1"),
     ("instance_url", .str "https://example.my.salesforce.com")]
    "T1" "https://example.my.salesforce.com" rfl rfl rfl rfl

/-- C4: for every 200 answer whose body does not decode as the expected
shape, `authorize` returns a `ParseError` carrying the decode message and
the client state is returned unchanged. -/
theorem authorize_200_bad_shape_parse_error (self : SalesforceClient) (c : Constants)
    (net : FormRequest → SendResult) (body e : String)
    (hnet : net (authorizeRequest c) =
      .response { status := 200, textResult := some body })
    (hdec : authResponseFromStr body = .error e) :
    self.authorize c net = (.error (.ParseError e), self) := by
  simp [SalesforceClient.authorize, authorizeHandle, hnet, hdec]

/-- Witness for C4 on a body missing `access_token`. -/
theorem authorize_200_bad_shape_parse_error_witness :
    SalesforceClient.new.authorize cDemo netAuthNoTok =
      (.error (.ParseError "missing field access_token"), SalesforceClient.new) :=
  authorize_200_bad_shape_parse_error SalesforceClient.new cDemo netAuthNoTok
    authBodyNoTok "missing field access_token" rfl rfl

/-- C5: for every 201 answer to a create call whose JSON body has a string
member `id`, `insert_record` returns exactly that string. -/
theorem insert_record_201_returns_id (self : SalesforceClient) (ot : String)
    (data : List (String × Json)) (net : JsonPostRequest → SendResult)
    (iu tok body : String) (j : Json) (id : String)
    (hiu : self.instance_url = some iu) (htok : self.token = some tok)
    (hnet : net (insertRequest iu tok ot data) =
      .response { status := 201, textResult := some body })
    (hjson : jsonFromStr body = .ok j)
    (hid : (j.indexStr "id").as_str = some id) :
    self.insert_record ot data net = .ok id := by
  simp [SalesforceClient.insert_record, hiu, htok, hnet, hjson, hid]

/-- Witness for C5 on the specification's example id. -/
theorem insert_record_201_returns_id_witness :
    sAuthed.insert_record "Case" [("Subject", .str "Test case")] netInsOk =
      .ok "001xx000003DGb2AAG" :=
  insert_record_201_returns_id sAuthed "Case" [("Subject", .str "Test case")] netInsOk
    "https://example.my.salesforce.com" "T1" "\x7b\"id\":\"001xx000003DGb2AAG\"\x7d"
    (.obj [("id", .str "001xx000003DGb2AAG")]) "001xx000003DGb2AAG"
    rfl rfl rfl rfl rfl

/-- C6: on an authenticated client, a 201 create answer whose JSON body
lacks a string `id` yields `ParseError "Missing ID in response"`, and any
non-201 status yields a `CustomError` carrying that status and the raw
body. -/
theorem insert_record_failure_modes (self : SalesforceClient) (ot : String)
    (data : List (String × Json)) (net : JsonPostRequest → SendResult)
    (iu tok : String) (hiu : self.instance_url = some iu)
    (htok : self.token = some tok) :
    (∀ body j, net (insertRequest iu tok ot data) =
        .response { status := 201, textResult := some body } →
      jsonFromStr body = .ok j → (j.indexStr "id").as_str = none →
      self.insert_record ot data net = .err (.ParseError "Missing ID in response")) ∧
    (∀ status body, net (insertRequest iu tok ot data) =
        .response { status := status, textResult := some body } →
      status ≠ 201 →
      self.insert_record ot data net =
        .err (.CustomError ("Failed to create record. Status: " ++
          statusDisplay status ++ " - " ++ body))) := by
  constructor
  · intro body j hnet hjson hid
    simp [SalesforceClient.insert_record, hiu, htok, hnet, hjson, hid]
  · intro status body hnet hstatus
    simp [SalesforceClient.insert_record, hiu, htok, hnet, hstatus]

/-- Witness for C6: a 201 body without `id`, and a 400 answer. -/
theorem insert_record_failure_modes_witness :
    sAuthed.insert_record "Case" [] netInsNoId =
      .err (.ParseError "Missing ID in response") ∧
    sAuthed.insert_record "Case" [] netIns400 =
      .err (.CustomError ("Failed to create record. Status: " ++
        statusDisplay 400 ++ " - " ++ "duplicate value found")) :=
  ⟨(insert_record_failure_modes sAuthed "Case" [] netInsNoId
      "https://example.my.salesforce.com" "T1" rfl rfl).1
      "\x7b\"success\":true\x7d" (.obj [("success", .bool true)]) rfl rfl rfl,
   (insert_record_failure_modes sAuthed "Case" [] netIns400
      "https://example.my.salesforce.com" "T1" rfl rfl).2
      400 "duplicate value found" rfl (by decide)⟩

/-- C7: for every 200 answer to a query call whose body parses as JSON,
`query_records` returns exactly the parsed JSON value. -/
theorem query_records_200_verbatim (self : SalesforceClient) (q : String)
    (net : GetRequest → SendResult) (iu tok body : String) (j : Json)
    (hiu : self.instance_url = some iu) (htok : self.token = some tok)
    (hnet : net (queryRequest iu tok q) =
      .response { status := 200, textResult := some body })
    (hjson : jsonFromStr body = .ok j) :
    self.query_records q net = .ok j := by
  simp [SalesforceClient.query_records, hiu, htok, hnet, hjson]

/-- Witness for C7 on the specification's example envelope. -/
theorem query_records_200_verbatim_witness :
    sAuthed.query_records "SELECT Id, Subject FROM Case LIMIT 10" netQueryOk =
      .ok queryJsonDemo :=
  query_records_200_verbatim sAuthed "SELECT Id, Subject FROM Case LIMIT 10" netQueryOk
    "https://example.my.salesforce.com" "T1" queryBodyDemo queryJsonDemo
    rfl rfl rfl rfl

/-- C8: the token exchange posts to `endpoint ++ "/services/oauth2/token"`
with exactly the five form fields, the `password` field being the account
password concatenated with the security token; and `authorize` consults
the network only on that request. -/
theorem authorize_request_form (c : Constants) (self : SalesforceClient)
    (net : FormRequest → SendResult) :
    (authorizeRequest c).url = c.endpoint ++ "/services/oauth2/token" ∧
    (authorizeRequest c).params =
      [("grant_type", "password"), ("client_id", c.consumer_key),
       ("client_secret", c.consumer_secret), ("username", c.username),
       ("password", c.password ++ c.token)] ∧
    self.authorize c net = authorizeHandle self (net (authorizeRequest c)) :=
  ⟨rfl, rfl, rfl⟩

/-- C9: whatever the configuration section holds, the loader's `password`
field is the literal embedded in the source, and the other five fields come
from the section's `CONSUMER_KEY`, `CONSUMER_SECRET`, `USERNAME`, `TOKEN`
and `ENDPOINT` keys. -/
theorem constants_password_hardcoded (sec : List (String × String)) (c : Constants)
    (h : Constants.fromSection sec = some c) :
    c.password = "GDMERPDevStud10$!@" ∧
    sec.lookup "CONSUMER_KEY" = some c.consumer_key ∧
    sec.lookup "CONSUMER_SECRET" = some c.consumer_secret ∧
    sec.lookup "USERNAME" = some c.username ∧
    sec.lookup "TOKEN" = some c.token ∧
    sec.lookup "ENDPOINT" = some c.endpoint := by
  unfold Constants.fromSection at h
  split at h
  next ck cs un tk ep hck hcs hun htk hep =>
    injection h with h
    subst h
    exact ⟨rfl, hck, hcs, hun, htk, hep⟩
  next => exact Option.noConfusion h

/-- Witness for C9 on the template section the loader writes. -/
theorem constants_password_hardcoded_witness :
    cFromSecDemo.password = "GDMERPDevStud10$!@" ∧
    secDemo.lookup "CONSUMER_KEY" = some cFromSecDemo.consumer_key ∧
    secDemo.lookup "CONSUMER_SECRET" = some cFromSecDemo.consumer_secret ∧
    secDemo.lookup "USERNAME" = some cFromSecDemo.username ∧
    secDemo.lookup "TOKEN" = some cFromSecDemo.token ∧
    secDemo.lookup "ENDPOINT" = some cFromSecDemo.endpoint :=
  constants_password_hardcoded secDemo cFromSecDemo rfl

/-- Case analysis of `authorizeHandle`: success populates both session
fields, failure returns the state unchanged. -/
theorem authorizeHandle_state (self : SalesforceClient) (send : SendResult) :
    (isOkResult (authorizeHandle self send).1 = true →
      (authorizeHandle self send).2.token.isSome = true ∧
      (authorizeHandle self send).2.instance_url.isSome = true) ∧
    (isOkResult (authorizeHandle self send).1 = false →
      (authorizeHandle self send).2 = self) := by
  rcases send with e | res
  · simp [authorizeHandle, isOkResult]
  · by_cases hs : res.status = 200
    · rcases hdec : authResponseFromStr (res.textResult.getD "Failed to read response")
        with e | ar
      · simp [authorizeHandle, isOkResult, hs, hdec]
      · simp [authorizeHandle, isOkResult, hs, hdec]
    · simp [authorizeHandle, isOkResult, hs]

/-- C10: the session fields are both absent or both present throughout:
`new` starts with both `none`, a successful `authorize` sets both, and a
failed `authorize` returns the client unchanged (the record operations
take the client immutably and cannot touch either field). -/
theorem session_fields_invariant (self : SalesforceClient) (c : Constants)
    (net : FormRequest → SendResult) :
    (SalesforceClient.new.token = none ∧ SalesforceClient.new.instance_url = none) ∧
    (isOkResult (self.authorize c net).1 = true →
      (self.authorize c net).2.token.isSome = true ∧
      (self.authorize c net).2.instance_url.isSome = true) ∧
    (isOkResult (self.authorize c net).1 = false →
      (self.authorize c net).2 = self) := by
  refine ⟨⟨rfl, rfl⟩, ?_, ?_⟩
  · exact (authorizeHandle_state self (net (authorizeRequest c))).1
  · exact (authorizeHandle_state self (net (authorizeRequest c))).2

/-- Witness for C10: a succeeding and a failing authorization. -/
theorem session_fields_invariant_witness :
    ((SalesforceClient.new.token = none ∧
      SalesforceClient.new.instance_url = none) ∧
     ((SalesforceClient.new.authorize cDemo netAuthOk).2.token.isSome = true ∧
      (SalesforceClient.new.authorize cDemo netAuthOk).2.instance_url.isSome = true)) ∧
    (SalesforceClient.new.authorize cDemo netAuth401).2 = SalesforceClient.new :=
  ⟨⟨(session_fields_invariant SalesforceClient.new cDemo netAuthOk).1,
    (session_fields_invariant SalesforceClient.new cDemo netAuthOk).2.1 rfl⟩,
   (session_fields_invariant SalesforceClient.new cDemo netAuth401).2.2 rfl⟩

end Rustforce
